import Mathlib

/-!
Shallow embedding of the billing reconciliation engine
(`src/integration/billing/BillingIntegration.ts`) and of the feature
toggle module, together with theorems settling the specification claims.

Conventions of the embedding:
* JavaScript nullable / possibly-`undefined` values are `Option`s; the
  JS truthiness test `!x` on an object or a non-empty string is `Option.isNone`.
* Fallible provider calls (which may reject their promise) are modelled
  with `Except`: `.error` is a thrown exception, `.ok none` is a normal
  return of `null`/`undefined`, `.ok (some v)` a normal return of `v`.
* Timestamps (`new Date()`) are passed in as a `Nat` parameter `now`.
* Storage writes are recorded explicitly in the results (saved invoices,
  deletions, saved user billing data, updated settings) so that frame
  conditions can be stated.
-/

namespace Billing

/-- Billing data attached to a user record (`BillingData` in the source):
`customerID` is the provider-side identity, nullable until the first sync. -/
structure UserBillingData where
  customerID : Option String
  hasSynchroError : Bool
  invoicesLastSynchronizedOn : Option Nat
deriving DecidableEq

/-- A local (e-Mobility) user: identity, email and optional billing data
(`User` in the source, restricted to the fields the engine reads). -/
structure User where
  id : String
  email : String
  billingData : Option UserBillingData
deriving DecidableEq

/-- A provider-side user projection (`BillingUser` in the source). -/
structure BillingUser where
  email : String
  billingData : Option UserBillingData
deriving DecidableEq

/-- Billing data attached to a transaction: carries the invoice reference
set once the session has been billed. -/
structure TransactionBillingData where
  invoiceID : Option String
deriving DecidableEq

/-- The charging station attached to a transaction; the guard only tests
its presence, so the embedding keeps just an identifier. -/
structure ChargeBox where
  id : String
deriving DecidableEq

/-- A transaction as seen by the transaction guard (`Transaction` in the
source, restricted to the fields `checkStopTransaction` reads). -/
structure Transaction where
  userID : Option String
  user : Option User
  chargeBox : Option ChargeBox
  billingData : Option TransactionBillingData
deriving DecidableEq

/-- Outcome of a guard check.  `backendError` is a thrown `BackendError`
(a documented precondition error, identified by its message);
`typeError` is a JavaScript `TypeError` raised by dereferencing an
`undefined` value — not a `BackendError`. -/
inductive GuardOutcome where
  | ok : GuardOutcome
  | backendError : String → GuardOutcome
  | typeError : GuardOutcome
deriving DecidableEq

/-- Embedding of `checkStopTransaction` (BillingIntegration.ts:409-449).
The source tests `transaction?.billingData.invoiceID`: the optional
chaining guards `transaction` (which is already known non-null at that
point), not `billingData`, so a transaction without `billingData`
produces a `TypeError` there, before the `user.billingData` check. -/
def checkStopTransaction (t : Transaction) : GuardOutcome :=
  if t.userID.isNone || t.user.isNone then
    .backendError "User is not provided"
  else if t.chargeBox.isNone then
    .backendError "Charging Station is not provided"
  else
    match t.billingData with
    | none => .typeError
    | some bd =>
      if bd.invoiceID.isSome then
        .backendError "Transaction has already billing data"
      else
        match t.user with
        | none => .typeError
        | some u =>
          if u.billingData.isNone then
            .backendError "User has no Billing Data"
          else
            .ok

/-- Embedding of `checkStartTransaction` (BillingIntegration.ts:451-473). -/
def checkStartTransaction (t : Transaction) : GuardOutcome :=
  if t.userID.isNone || t.user.isNone then
    .backendError "User is not provided"
  else
    match t.user with
    | none => .typeError
    | some u =>
      match u.billingData with
      | none => .backendError "Transaction user has no billing method or no customer in Stripe"
      | some bd =>
        if bd.customerID.isNone then
          .backendError "Transaction user has no billing method or no customer in Stripe"
        else
          .ok

/-- A transaction with user, charging station and user billing data all
present, but with no transaction-level billing data: the input on which
the claimed guard behaviour and the code diverge. -/
def txMissingBillingData : Transaction :=
  { userID := some "u1"
    user := some { id := "u1", email := "u1@x.org"
                   billingData := some { customerID := some "cus_1"
                                         hasSynchroError := false
                                         invoicesLastSynchronizedOn := none } }
    chargeBox := some { id := "cb1" }
    billingData := none }

/-- A transaction whose user additionally lacks billing data (the claimed
precondition "User has no Billing Data" should fire on it). -/
def txMissingBothBillingData : Transaction :=
  { userID := some "u1"
    user := some { id := "u1", email := "u1@x.org", billingData := none }
    chargeBox := some { id := "cb1" }
    billingData := none }

/-- Tally of a batch operation (`BillingUserSynchronizeAction` /
`BillingChargeInvoiceAction` in the source). -/
structure BillingUserSynchronizeAction where
  inSuccess : Nat
  inError : Nat
deriving DecidableEq

/-- Stripe section of the tenant billing settings: the two
synchronization watermarks. -/
structure StripeSettings where
  usersLastSynchronizedOn : Option Nat
  invoicesLastSynchronizedOn : Option Nat
deriving DecidableEq

/-- Tenant billing settings as read from and written to `SettingStorage`. -/
structure BillingSettings where
  stripe : StripeSettings
deriving DecidableEq

/-- A provider-side invoice as returned by `getInvoice`
(`BillingInvoice` in the source, restricted to the fields
`synchronizeInvoices` reads). -/
structure BillingInvoice where
  customerID : String
  nbrOfItems : Nat
deriving DecidableEq

/-- A local invoice record as returned by
`BillingStorage.getInvoiceByBillingInvoiceID`. -/
structure LocalInvoice where
  id : String
  downloadable : Bool
  nbrOfItems : Nat
deriving DecidableEq

/-- An invoice record as persisted by `BillingStorage.saveInvoice`:
the provider projection enriched with the resolved user and the
`downloadable` flag. -/
structure SavedInvoice where
  id : String
  userID : String
  downloadable : Bool
  nbrOfItems : Nat
deriving DecidableEq

/-- Environment of `synchronizeInvoices`: the provider calls and the
storage reads the sweep performs.  Provider calls that may reject are
`Except`-valued (see the module conventions). -/
structure InvEnv where
  connectionOK : Bool
  getUserByEmail : String → Option BillingUser
  getUpdatedInvoiceIDsAll : List String
  getUpdatedInvoiceIDsForUser : BillingUser → List String
  getInvoice : String → Except Unit (Option BillingInvoice)
  getInvoiceByBillingInvoiceID : String → Option LocalInvoice
  getUserByBillingID : String → Option User
  downloadInvoiceDocument : String → Except Unit (Option Unit)

/-- Effects and outcome of processing one invoice identifier inside the
`synchronizeInvoices` loop body (BillingIntegration.ts:232-334):
`success` records whether the item was tallied into `inSuccess` (`false`
means `inError`, including a caught exception); `savedInvoice` is the
final persisted state of the invoice, `none` if no save happened. -/
structure ItemEffects where
  success : Bool
  deletedLocal : Bool
  savedInvoice : Option SavedInvoice
  downloadAttempted : Bool
  docSaved : Bool
  userBillingSaved : Option (String × UserBillingData)
deriving DecidableEq

/-- Resolution of the invoice's owning user (BillingIntegration.ts:271-277):
the scoped user when one was given to the call, otherwise the local user
correlated by the provider invoice's `customerID`. -/
def resolveInvoiceUser (env : InvEnv) (scopedUser : Option User)
    (invB : BillingInvoice) : Option User :=
  match scopedUser with
  | some u => some u
  | none => env.getUserByBillingID invB.customerID

/-- Tail of the loop body after the download policy has run
(BillingIntegration.ts:308-321): stamp the owning user's
`invoicesLastSynchronizedOn` and tally the item as a success.  The
source dereferences `userInInvoice.billingData` without a guard, so a
resolved user without billing data raises a `TypeError` that the item
`catch` turns into an `inError` tally; the invoice saves that already
happened remain persisted. -/
def finishInvoiceItem (saved : SavedInvoice) (dl docSaved : Bool)
    (u : User) (now : Nat) : ItemEffects :=
  match u.billingData with
  | none =>
    { success := false, deletedLocal := false, savedInvoice := some saved
      downloadAttempted := dl, docSaved := docSaved, userBillingSaved := none }
  | some bd =>
    { success := true, deletedLocal := false, savedInvoice := some saved
      downloadAttempted := dl, docSaved := docSaved
      userBillingSaved := some (u.id, { bd with invoicesLastSynchronizedOn := some now }) }

/-- An item tallied into `inError` with no storage effect. -/
def invoiceItemError : ItemEffects :=
  { success := false, deletedLocal := false, savedInvoice := none
    downloadAttempted := false, docSaved := false, userBillingSaved := none }

/-- Embedding of one iteration of the `synchronizeInvoices` loop
(BillingIntegration.ts:232-334): fetch the provider invoice and the
local invoice, handle the two absence cases, otherwise upsert, apply the
document download policy and stamp the owning user.  Any thrown
exception inside the iteration is caught and tallied as `inError`. -/
def processInvoiceItem (env : InvEnv) (scopedUser : Option User) (now : Nat)
    (invoiceIDInBilling : String) : ItemEffects :=
  match env.getInvoice invoiceIDInBilling with
  | .error _ => invoiceItemError
  | .ok invoiceInBillingOpt =>
    let invoice := env.getInvoiceByBillingInvoiceID invoiceIDInBilling
    match invoiceInBillingOpt with
    | none =>
      match invoice with
      | none => invoiceItemError
      | some _ =>
        { success := true, deletedLocal := true, savedInvoice := none
          downloadAttempted := false, docSaved := false, userBillingSaved := none }
    | some invB =>
      match resolveInvoiceUser env scopedUser invB with
      | none => invoiceItemError
      | some u =>
        let downloadable0 : Bool :=
          match invoice with
          | some inv => inv.downloadable
          | none => false
        let saved0 : SavedInvoice :=
          { id := match invoice with
                  | some inv => inv.id
                  | none => invoiceIDInBilling
            userID := u.id, downloadable := downloadable0
            nbrOfItems := invB.nbrOfItems }
        let needDownload : Bool :=
          match invoice with
          | none => true
          | some inv => !inv.downloadable || (inv.nbrOfItems != invB.nbrOfItems)
        if needDownload then
          match env.downloadInvoiceDocument invoiceIDInBilling with
          | .error _ =>
            { success := false, deletedLocal := false, savedInvoice := some saved0
              downloadAttempted := true, docSaved := false, userBillingSaved := none }
          | .ok none => finishInvoiceItem saved0 true false u now
          | .ok (some _) =>
            finishInvoiceItem { saved0 with downloadable := true } true true u now
        else
          finishInvoiceItem saved0 false false u now

/-- Errors that abort a `synchronizeInvoices` call as a whole (thrown
`BackendError`s of `checkConnection` / `checkAndGetBillingUser`, never
tallied per item). -/
inductive SyncError where
  | connectionFailed : SyncError
  | userDoesNotExistInBilling : SyncError
  | noBillingDataInBillingSystem : SyncError
  | noBillingDataInEMobility : SyncError
  | billingDataMismatch : SyncError
deriving DecidableEq

/-- Embedding of `checkAndGetBillingUser` (BillingIntegration.ts:475-519):
the scoped-call precondition on the user's billing identity. -/
def checkAndGetBillingUser (env : InvEnv) (user : User) :
    Except SyncError BillingUser :=
  match env.getUserByEmail user.email with
  | none => .error .userDoesNotExistInBilling
  | some billingUser =>
    match billingUser.billingData with
    | none => .error .noBillingDataInBillingSystem
    | some bbd =>
      if bbd.customerID.isNone then .error .noBillingDataInBillingSystem
      else
        match user.billingData with
        | none => .error .noBillingDataInEMobility
        | some ubd =>
          if ubd.customerID.isNone then .error .noBillingDataInEMobility
          else if ubd.customerID ≠ bbd.customerID then .error .billingDataMismatch
          else .ok billingUser

/-- Result of a completed `synchronizeInvoices` sweep: the tally, the
per-item effects in processing order, and the tenant billing settings
as stored at the end of the call. -/
structure InvoiceSyncResult where
  tally : BillingUserSynchronizeAction
  effects : List ItemEffects
  settings : BillingSettings

/-- Tally accumulated over the per-item effects (each item increments
exactly one of the two counters). -/
def tallyOf (effects : List ItemEffects) : BillingUserSynchronizeAction :=
  { inSuccess := (effects.filter (·.success)).length
    inError := (effects.filter (fun e => !e.success)).length }

/-- Embedding of `synchronizeInvoices` (BillingIntegration.ts:202-351):
check the connection; for a user-scoped call run the
`checkAndGetBillingUser` precondition (a failure is fatal to the call);
fetch the changed invoice identifiers (scoped to the billing user with
the local user's billing data substituted, line 216, or tenant-wide);
process each identifier; finally advance the tenant-wide
`invoicesLastSynchronizedOn` watermark only on the unscoped call. -/
def synchronizeInvoices (env : InvEnv) (now : Nat)
    (settings : BillingSettings) (user : Option User) :
    Except SyncError InvoiceSyncResult :=
  if !env.connectionOK then .error .connectionFailed
  else
    match user with
    | some u =>
      match checkAndGetBillingUser env u with
      | .error e => .error e
      | .ok billingUser =>
        let ids := env.getUpdatedInvoiceIDsForUser
          { billingUser with billingData := u.billingData }
        let effects := ids.map (processInvoiceItem env (some u) now)
        .ok { tally := tallyOf effects, effects := effects, settings := settings }
    | none =>
      let ids := env.getUpdatedInvoiceIDsAll
      let effects := ids.map (processInvoiceItem env none now)
      .ok { tally := tallyOf effects, effects := effects
            settings := { stripe := { settings.stripe with
                            invoicesLastSynchronizedOn := some now } } }

/-- Environment of `synchronizeUsers`: storage queries and the outcome
of the per-user provider round-trip.  `syncUser u` abstracts one call of
`synchronizeUser` on `u` (create-or-update in the provider plus the save
of the returned billing data): `.ok` is a completed round-trip, `.error`
a thrown exception. -/
structure UsersEnv where
  connectionOK : Bool
  usersInError : List User
  newUsersToSync : List User
  syncUser : User → Except Unit UserBillingData
  updatedUserIDsInBilling : List String
  getUserByBillingID : String → Option User
  getUser : String → Option BillingUser

/-- First loop of `synchronizeUsers` (BillingIntegration.ts:55-80):
synchronize each not-yet-synchronized active user, tallying a success or
an error per user and never aborting the loop. -/
def syncNewUsersLoop (syncUser : User → Except Unit UserBillingData) :
    List User → BillingUserSynchronizeAction → BillingUserSynchronizeAction
  | [], t => t
  | u :: rest, t =>
    match syncUser u with
    | .ok _ => syncNewUsersLoop syncUser rest
        { t with inSuccess := t.inSuccess + 1 }
    | .error _ => syncNewUsersLoop syncUser rest
        { t with inError := t.inError + 1 }

/-- Second loop of `synchronizeUsers` (BillingIntegration.ts:93-147):
for each provider-side changed customer identifier, resolve the local
user (an unknown identifier is an error), detect provider-side deletion
(mark the local billing data as errored), otherwise re-run the
round-trip.  The deletion branch writes
`user.billingData.hasSynchroError = true` without a guard on
`billingData`, and this statement is outside the loop's `try`, so a
resolved user without billing data raises a `TypeError` that escapes
`synchronizeUsers` entirely — modelled as `.error`. -/
def syncChangedUsersLoop (env : UsersEnv) :
    List String → BillingUserSynchronizeAction →
    Except Unit BillingUserSynchronizeAction
  | [], t => .ok t
  | id :: rest, t =>
    match env.getUserByBillingID id with
    | none => syncChangedUsersLoop env rest { t with inError := t.inError + 1 }
    | some user =>
      match env.getUser id with
      | none =>
        match user.billingData with
        | none => .error ()
        | some _ => syncChangedUsersLoop env rest { t with inError := t.inError + 1 }
      | some _ =>
        match env.syncUser user with
        | .ok _ => syncChangedUsersLoop env rest { t with inSuccess := t.inSuccess + 1 }
        | .error _ => syncChangedUsersLoop env rest { t with inError := t.inError + 1 }

/-- Embedding of `synchronizeUsers` (BillingIntegration.ts:31-163):
check the connection; count the users already flagged with a billing
synchronization error into `inError` up front; run the two
synchronization loops; then unconditionally advance the
`usersLastSynchronizedOn` watermark and return the tally. -/
def synchronizeUsers (env : UsersEnv) (now : Nat)
    (settings : BillingSettings) :
    Except Unit (BillingUserSynchronizeAction × BillingSettings) :=
  if !env.connectionOK then .error ()
  else
    let t0 : BillingUserSynchronizeAction :=
      { inSuccess := 0, inError := env.usersInError.length }
    let t1 := syncNewUsersLoop env.syncUser env.newUsersToSync t0
    match syncChangedUsersLoop env env.updatedUserIDsInBilling t1 with
    | .error _ => .error ()
    | .ok t2 =>
      .ok (t2, { stripe := { settings.stripe with
                   usersLastSynchronizedOn := some now } })

/-- Modelled from the spec: the Provider Contract's customer store
(the concrete billing-provider client is out of scope of the source).
Per the spec, `createUser` creates one provider customer for the local
user, `updateUser` updates the existing one without creating anything,
and `userExists` reports whether the provider already holds a customer
for the user.  The store is the list of local-user identifiers that
have a provider customer, in creation order. -/
structure Provider where
  customers : List String
deriving DecidableEq

/-- Modelled from the spec: `userExists(user)` of the Provider Contract. -/
def userExists (p : Provider) (u : User) : Bool :=
  p.customers.contains u.id

/-- Modelled from the spec: `createUser(user)` of the Provider Contract —
creates exactly one fresh provider customer for the user and returns its
billing data. -/
def createUser (p : Provider) (u : User) : UserBillingData × Provider :=
  ({ customerID := some u.id, hasSynchroError := false
     invoicesLastSynchronizedOn := none },
   { customers := p.customers ++ [u.id] })

/-- Modelled from the spec: `updateUser(user)` of the Provider Contract —
updates the existing provider customer, creating nothing. -/
def updateUser (p : Provider) (u : User) : UserBillingData × Provider :=
  ({ customerID := some u.id, hasSynchroError := false
     invoicesLastSynchronizedOn := none },
   p)

/-- Embedding of `synchronizeUser` (BillingIntegration.ts:165-174) over
the provider model: call `createUser` exactly when `userExists` is
false, otherwise `updateUser`; the returned billing data is saved on the
local record.  The third component records whether `createUser` was the
branch taken. -/
def synchronizeUser (p : Provider) (u : User) :
    UserBillingData × Provider × Bool :=
  if userExists p u then
    let (bd, p1) := updateUser p u
    (bd, p1, false)
  else
    let (bd, p1) := createUser p u
    (bd, p1, true)

/-- Environment of `chargeInvoices`: the payable invoices in the storage
layer's return order and the outcome of each provider settlement call. -/
structure ChargeEnv where
  connectionOK : Bool
  invoicesToPay : List LocalInvoice
  chargeInvoice : LocalInvoice → Except Unit Unit

/-- Loop of `chargeInvoices` (BillingIntegration.ts:362-386): attempt
each invoice in order; a success or a failure each advance the tally and
never abort the loop.  Returns the tally together with the list of
invoices attempted, in attempt order. -/
def chargeInvoicesLoop (charge : LocalInvoice → Except Unit Unit) :
    List LocalInvoice → BillingUserSynchronizeAction →
    BillingUserSynchronizeAction × List LocalInvoice
  | [], t => (t, [])
  | inv :: rest, t =>
    let t1 := match charge inv with
      | .ok _ => { t with inSuccess := t.inSuccess + 1 }
      | .error _ => { t with inError := t.inError + 1 }
    let (t2, att) := chargeInvoicesLoop charge rest t1
    (t2, inv :: att)

/-- Embedding of `chargeInvoices` (BillingIntegration.ts:353-388):
check the connection, then attempt settlement of every payable invoice.
The function performs no invoice storage write at all, so the stored
invoices (`store`) are returned unchanged. -/
def chargeInvoices (env : ChargeEnv) (store : List SavedInvoice) :
    Except Unit (BillingUserSynchronizeAction × List LocalInvoice × List SavedInvoice) :=
  if !env.connectionOK then .error ()
  else
    let (t, att) := chargeInvoicesLoop env.chargeInvoice env.invoicesToPay
      { inSuccess := 0, inError := 0 }
    .ok (t, att, store)

/-! Concrete instances used to evaluate the theorems on closed inputs. -/

/-- Billing data with a provider customer identity, used by concrete users. -/
def bdCus (c : String) : UserBillingData :=
  { customerID := some c, hasSynchroError := false
    invoicesLastSynchronizedOn := none }

/-- A concrete user with billing data. -/
def mkUser (i e c : String) : User :=
  { id := i, email := e, billingData := some (bdCus c) }

/-- A concrete user without billing data. -/
def mkBareUser (i e : String) : User :=
  { id := i, email := e, billingData := none }

/-- Tenant settings with both watermarks unset. -/
def settings0 : BillingSettings :=
  { stripe := { usersLastSynchronizedOn := none
                invoicesLastSynchronizedOn := none } }

/-- Environment for the `synchronizeUsers` scenario: three users already
flagged in error, two new users of which only `n1` completes the
provider round-trip, and no provider-side changed customers. -/
def usersEnvC2 : UsersEnv :=
  { connectionOK := true
    usersInError := [mkBareUser "e1" "e1@x.org", mkBareUser "e2" "e2@x.org",
                     mkBareUser "e3" "e3@x.org"]
    newUsersToSync := [mkBareUser "n1" "n1@x.org", mkBareUser "n2" "n2@x.org"]
    syncUser := fun u => if u.id = "n1" then .ok (bdCus "cus_n1") else .error ()
    updatedUserIDsInBilling := []
    getUserByBillingID := fun _ => none
    getUser := fun _ => none }

/-- Base invoice-sweep environment; the instances below override the
calls they exercise. -/
def invEnvBase : InvEnv :=
  { connectionOK := true
    getUserByEmail := fun _ => none
    getUpdatedInvoiceIDsAll := []
    getUpdatedInvoiceIDsForUser := fun _ => []
    getInvoice := fun _ => .error ()
    getInvoiceByBillingInvoiceID := fun _ => none
    getUserByBillingID := fun _ => none
    downloadInvoiceDocument := fun _ => .error () }

/-- Environment exercising the download trigger: the provider invoice
`inv_1` has 3 items and the prior local record is already downloadable
with the same item count, so no download must be attempted. -/
def invEnvC3 : InvEnv :=
  { invEnvBase with
    getInvoice := fun _ => .ok (some { customerID := "cus_3", nbrOfItems := 3 })
    getInvoiceByBillingInvoiceID := fun _ =>
      some { id := "loc_1", downloadable := true, nbrOfItems := 3 } }

/-- Environment in which the document download throws: the provider
invoice exists, no prior local record, and `downloadInvoiceDocument`
rejects. -/
def invEnvC4throw : InvEnv :=
  { invEnvBase with
    getInvoice := fun _ => .ok (some { customerID := "cus_4", nbrOfItems := 2 })
    getInvoiceByBillingInvoiceID := fun _ => none
    downloadInvoiceDocument := fun _ => .error () }

/-- Environment in which the document download returns normally with no
document. -/
def invEnvC4absent : InvEnv :=
  { invEnvBase with
    getInvoice := fun _ => .ok (some { customerID := "cus_4", nbrOfItems := 2 })
    getInvoiceByBillingInvoiceID := fun _ => none
    downloadInvoiceDocument := fun _ => .ok none }

/-- Environment in which the provider no longer has any invoice and the
local store holds one record, keyed `inv_present`. -/
def invEnvC5 : InvEnv :=
  { invEnvBase with
    getInvoice := fun _ => .ok none
    getInvoiceByBillingInvoiceID := fun id =>
      if id = "inv_present" then
        some { id := "loc_5", downloadable := false, nbrOfItems := 1 }
      else none }

/-- Environment for the scoped-call precondition: the provider has no
customer for any email. -/
def invEnvC6 : InvEnv := invEnvBase

/-- A user whose billing identity matches the provider's customer
`cus_7`. -/
def userC7 : User := mkUser "u7" "u7@x.org" "cus_7"

/-- Environment in which the scoped call on `userC7` passes the
precondition and both sweeps process an empty identifier set. -/
def invEnvC7 : InvEnv :=
  { invEnvBase with
    getUserByEmail := fun e =>
      if e = "u7@x.org" then
        some { email := "u7@x.org", billingData := some (bdCus "cus_7") }
      else none }

/-- The result of the unscoped `synchronizeInvoices` sweep on
`invEnvC7` at time 9. -/
def resC7none : InvoiceSyncResult :=
  { tally := { inSuccess := 0, inError := 0 }, effects := []
    settings := { stripe := { usersLastSynchronizedOn := none
                              invoicesLastSynchronizedOn := some 9 } } }

/-- The result of the `synchronizeInvoices` sweep scoped to `userC7` on
`invEnvC7` at time 9. -/
def resC7some : InvoiceSyncResult :=
  { tally := { inSuccess := 0, inError := 0 }, effects := []
    settings := settings0 }

/-- A payable invoice with the given identifier. -/
def mkInv (i : String) : LocalInvoice :=
  { id := i, downloadable := false, nbrOfItems := 1 }

/-- Charge environment with five payable invoices of which `i2` and
`i4` fail settlement. -/
def chargeEnvC8 : ChargeEnv :=
  { connectionOK := true
    invoicesToPay := [mkInv "i1", mkInv "i2", mkInv "i3", mkInv "i4", mkInv "i5"]
    chargeInvoice := fun inv =>
      if inv.id = "i2" || inv.id = "i4" then .error () else .ok () }

/-- A provider holding no customer yet. -/
def providerEmpty : Provider := { customers := [] }

/-! Helper lemmas about the per-item pipeline. -/

theorem finishInvoiceItem_downloadAttempted (s : SavedInvoice) (dl ds : Bool)
    (u : User) (now : Nat) :
    (finishInvoiceItem s dl ds u now).downloadAttempted = dl := by
  unfold finishInvoiceItem
  cases u.billingData <;> rfl

theorem finishInvoiceItem_docSaved (s : SavedInvoice) (dl ds : Bool)
    (u : User) (now : Nat) :
    (finishInvoiceItem s dl ds u now).docSaved = ds := by
  unfold finishInvoiceItem
  cases u.billingData <;> rfl

theorem finishInvoiceItem_savedInvoice (s : SavedInvoice) (dl ds : Bool)
    (u : User) (now : Nat) :
    (finishInvoiceItem s dl ds u now).savedInvoice = some s := by
  unfold finishInvoiceItem
  cases u.billingData <;> rfl

theorem finishInvoiceItem_success_of_billingData (s : SavedInvoice) (dl ds : Bool)
    (u : User) (now : Nat) (bd : UserBillingData) (h : u.billingData = some bd) :
    (finishInvoiceItem s dl ds u now).success = true := by
  unfold finishInvoiceItem
  rw [h]

/-! Claim theorems. -/

/-- C1: on the failing input — a transaction with a user, a charging
station and user billing data absent, and no transaction-level billing
data — the claimed precondition error (User has no Billing Data) is
never raised: the code dereferences the absent `billingData` through
`transaction?.billingData.invoiceID` and raises a `TypeError` instead. -/
theorem checkStopTransaction_typeError_on_missing_transaction_billingData :
    checkStopTransaction txMissingBothBillingData = .typeError := rfl

/-- C10: for every transaction that has a `userID`, a `user` and a
`chargeBox` but whose own `billingData` is absent, `checkStopTransaction`
neither returns normally nor raises a documented precondition
`BackendError`: the optional chaining in
`transaction?.billingData.invoiceID` guards `transaction`, not
`billingData`, so the `invoiceID` access dereferences the absent
`billingData` and raises a `TypeError`. -/
theorem checkStopTransaction_missing_billingData_typeError
    (t : Transaction) (h1 : t.userID.isSome) (h2 : t.user.isSome)
    (h3 : t.chargeBox.isSome) (h4 : t.billingData = none) :
    checkStopTransaction t = .typeError := by
  obtain ⟨a, ha⟩ := Option.isSome_iff_exists.mp h1
  obtain ⟨b, hb⟩ := Option.isSome_iff_exists.mp h2
  obtain ⟨c, hc⟩ := Option.isSome_iff_exists.mp h3
  simp [checkStopTransaction, ha, hb, hc, h4]

/-- C10 witness: the generic `TypeError` theorem applied to the concrete
transaction `txMissingBillingData`. -/
theorem checkStopTransaction_missing_billingData_typeError_witness :
    checkStopTransaction txMissingBillingData = GuardOutcome.typeError :=
  checkStopTransaction_missing_billingData_typeError txMissingBillingData
    rfl rfl rfl rfl

/-- C3: for every processed provider invoice that is upserted (the
provider invoice was fetched and the owning user resolved), a document
download is attempted exactly when there was no prior local record, or
the prior record was not downloadable, or the prior record's item count
differs from the provider invoice's item count. -/
theorem processInvoiceItem_download_trigger (env : InvEnv) (su : Option User)
    (now : Nat) (idB : String) (invB : BillingInvoice) (u : User)
    (hget : env.getInvoice idB = .ok (some invB))
    (huser : resolveInvoiceUser env su invB = some u) :
    (processInvoiceItem env su now idB).downloadAttempted = true ↔
      (env.getInvoiceByBillingInvoiceID idB = none ∨
       ∃ inv, env.getInvoiceByBillingInvoiceID idB = some inv ∧
         (inv.downloadable = false ∨ inv.nbrOfItems ≠ invB.nbrOfItems)) := by
  cases hloc : env.getInvoiceByBillingInvoiceID idB with
  | none =>
    cases hdl : env.downloadInvoiceDocument idB with
    | error e => simp [processInvoiceItem, hget, huser, hloc, hdl]
    | ok d =>
      cases d <;>
        simp [processInvoiceItem, hget, huser, hloc, hdl,
          finishInvoiceItem_downloadAttempted]
  | some inv =>
    cases hd : inv.downloadable with
    | false =>
      cases hdl : env.downloadInvoiceDocument idB with
      | error e => simp [processInvoiceItem, hget, huser, hloc, hd, hdl]
      | ok d =>
        cases d <;>
          simp [processInvoiceItem, hget, huser, hloc, hd, hdl,
            finishInvoiceItem_downloadAttempted]
    | true =>
      by_cases hn : inv.nbrOfItems = invB.nbrOfItems
      · simp [processInvoiceItem, hget, huser, hloc, hd, hn,
          finishInvoiceItem_downloadAttempted]
      · cases hdl : env.downloadInvoiceDocument idB with
        | error e => simp [processInvoiceItem, hget, huser, hloc, hd, hn, hdl]
        | ok d =>
          cases d <;>
            simp [processInvoiceItem, hget, huser, hloc, hd, hn, hdl,
              finishInvoiceItem_downloadAttempted]

/-- C3 witness: on `invEnvC4absent` the provider invoice `inv_1` has no
prior local record, so the download is attempted. -/
theorem processInvoiceItem_download_trigger_witness :
    (processInvoiceItem invEnvC4absent (some userC7) 0 "inv_1").downloadAttempted
      = true :=
  (processInvoiceItem_download_trigger invEnvC4absent (some userC7) 0 "inv_1"
    { customerID := "cus_4", nbrOfItems := 2 } userC7 rfl rfl).mpr (Or.inl rfl)

/-- C4 counterexample: with no prior local record the download is
attempted; when `downloadInvoiceDocument` throws, the item is tallied
into `inError` (the exception is caught by the per-item handler), not
into `inSuccess` as the claim states for a failed download. -/
theorem download_throw_tallied_inError_cex :
    (processInvoiceItem invEnvC4throw (some userC7) 0 "inv_1").downloadAttempted
        = true ∧
      (processInvoiceItem invEnvC4throw (some userC7) 0 "inv_1").success = false :=
  ⟨rfl, rfl⟩

/-- C4 amended: for every item where the provider invoice was fetched,
the owning user resolved with billing data present, and the document
download returns normally with no document, the persisted invoice's
`downloadable` flag keeps its prior value (`false` for a new record, the
carried-forward value otherwise), no document is stored, and the item is
tallied into `inSuccess`; an absent download is never by itself an item
error (unlike a download that throws, which the per-item handler tallies
into `inError`). -/
theorem absent_download_keeps_prior_downloadable_inSuccess
    (env : InvEnv) (su : Option User) (now : Nat) (idB : String)
    (invB : BillingInvoice) (u : User) (bd : UserBillingData)
    (hget : env.getInvoice idB = .ok (some invB))
    (huser : resolveInvoiceUser env su invB = some u)
    (hbd : u.billingData = some bd)
    (hdl : env.downloadInvoiceDocument idB = .ok none) :
    (processInvoiceItem env su now idB).success = true ∧
    (processInvoiceItem env su now idB).docSaved = false ∧
    (processInvoiceItem env su now idB).savedInvoice.map SavedInvoice.downloadable
      = some (match env.getInvoiceByBillingInvoiceID idB with
              | some inv => inv.downloadable
              | none => false) := by
  cases hloc : env.getInvoiceByBillingInvoiceID idB with
  | none =>
    simp [processInvoiceItem, hget, huser, hloc, hdl, finishInvoiceItem, hbd]
  | some inv =>
    cases hd : inv.downloadable with
    | false =>
      simp [processInvoiceItem, hget, huser, hloc, hd, hdl, finishInvoiceItem, hbd]
    | true =>
      by_cases hn : inv.nbrOfItems = invB.nbrOfItems
      · simp [processInvoiceItem, hget, huser, hloc, hd, hn, finishInvoiceItem, hbd]
      · simp [processInvoiceItem, hget, huser, hloc, hd, hn, hdl,
          finishInvoiceItem, hbd]

/-- C4 witness: the amended statement evaluated on `invEnvC4absent`
(no prior record, download returns no document): success, no document
stored, `downloadable` stays `false`. -/
theorem absent_download_keeps_prior_downloadable_inSuccess_witness :
    (processInvoiceItem invEnvC4absent (some userC7) 0 "inv_1").success = true ∧
    (processInvoiceItem invEnvC4absent (some userC7) 0 "inv_1").docSaved = false ∧
    (processInvoiceItem invEnvC4absent (some userC7) 0 "inv_1").savedInvoice.map
        SavedInvoice.downloadable = some false :=
  absent_download_keeps_prior_downloadable_inSuccess invEnvC4absent (some userC7)
    0 "inv_1" { customerID := "cus_4", nbrOfItems := 2 } userC7 (bdCus "cus_7")
    rfl rfl rfl rfl

/-- C5: when the provider returns no invoice for a processed identifier,
the presence of a local invoice decides the outcome: with a local record
the local invoice is deleted and the item is tallied into `inSuccess`;
with neither side present the item is tallied into `inError` and nothing
is deleted. -/
theorem provider_absent_invoice_resolution (env : InvEnv) (su : Option User)
    (now : Nat) (idB : String)
    (hget : env.getInvoice idB = .ok none) :
    ((env.getInvoiceByBillingInvoiceID idB).isSome = true →
       (processInvoiceItem env su now idB).deletedLocal = true ∧
       (processInvoiceItem env su now idB).success = true) ∧
    (env.getInvoiceByBillingInvoiceID idB = none →
       (processInvoiceItem env su now idB).success = false ∧
       (processInvoiceItem env su now idB).deletedLocal = false) := by
  cases hloc : env.getInvoiceByBillingInvoiceID idB with
  | none => simp [processInvoiceItem, hget, hloc, invoiceItemError]
  | some inv => simp [processInvoiceItem, hget, hloc]

/-- C5 witness: on `invEnvC5` the identifier `inv_present` has a local
record (deleted, success) and `inv_absent` has none (error). -/
theorem provider_absent_invoice_resolution_witness :
    ((processInvoiceItem invEnvC5 none 0 "inv_present").deletedLocal = true ∧
     (processInvoiceItem invEnvC5 none 0 "inv_present").success = true) ∧
    ((processInvoiceItem invEnvC5 none 0 "inv_absent").success = false ∧
     (processInvoiceItem invEnvC5 none 0 "inv_absent").deletedLocal = false) :=
  ⟨(provider_absent_invoice_resolution invEnvC5 none 0 "inv_present" rfl).1 rfl,
   (provider_absent_invoice_resolution invEnvC5 none 0 "inv_absent" rfl).2 rfl⟩

/-- Helper: the scoped-call precondition `checkAndGetBillingUser` fails
whenever the user's billing identity is not verified on both sides. -/
theorem checkAndGetBillingUser_isError (env : InvEnv) (u : User)
    (hcond : env.getUserByEmail u.email = none
      ∨ (∃ bu, env.getUserByEmail u.email = some bu ∧
          (bu.billingData = none ∨
           ∃ bd, bu.billingData = some bd ∧ bd.customerID = none))
      ∨ u.billingData = none
      ∨ (∃ ubd, u.billingData = some ubd ∧ ubd.customerID = none)
      ∨ (∃ bu bbd ubd, env.getUserByEmail u.email = some bu ∧
          bu.billingData = some bbd ∧ u.billingData = some ubd ∧
          ubd.customerID ≠ bbd.customerID)) :
    ∃ e, checkAndGetBillingUser env u = .error e := by
  unfold checkAndGetBillingUser
  cases hmail : env.getUserByEmail u.email with
  | none => exact ⟨.userDoesNotExistInBilling, rfl⟩
  | some bu =>
    cases hbd : bu.billingData with
    | none => exact ⟨.noBillingDataInBillingSystem, by simp [hbd]⟩
    | some bbd =>
      cases hbc : bbd.customerID with
      | none => exact ⟨.noBillingDataInBillingSystem, by simp [hbd, hbc]⟩
      | some bc =>
        cases hud : u.billingData with
        | none => exact ⟨.noBillingDataInEMobility, by simp [hbd, hbc, hud]⟩
        | some ubd =>
          cases huc : ubd.customerID with
          | none => exact ⟨.noBillingDataInEMobility, by simp [hbd, hbc, hud, huc]⟩
          | some uc =>
            have hne2 : ubd.customerID ≠ bbd.customerID := by
              rcases hcond with h | ⟨bu2, hbu2, h2 | ⟨bd2, hbd2, hc2⟩⟩ | h |
                ⟨ubd2, hubd2, hc2⟩ | ⟨bu2, bbd2, ubd2, hbu2, hbbd2, hubd2, hne⟩
              · exact absurd h (by simp [hmail])
              · rw [hmail, Option.some.injEq] at hbu2
                subst hbu2
                exact absurd h2 (by simp [hbd])
              · rw [hmail, Option.some.injEq] at hbu2
                subst hbu2
                rw [hbd, Option.some.injEq] at hbd2
                subst hbd2
                exact absurd hc2 (by simp [hbc])
              · exact absurd h (by simp [hud])
              · rw [hud, Option.some.injEq] at hubd2
                subst hubd2
                exact absurd hc2 (by simp [huc])
              · rw [hmail, Option.some.injEq] at hbu2
                subst hbu2
                rw [hbd, Option.some.injEq] at hbbd2
                subst hbbd2
                rw [hud, Option.some.injEq] at hubd2
                subst hubd2
                exact hne
            have hne3 : ¬(uc = bc) := by
              intro h
              exact hne2 (by rw [huc, hbc, h])
            exact ⟨.billingDataMismatch, by simp [hbd, hbc, hud, huc, hne3]⟩

/-- C6: a user-scoped `synchronizeInvoices(user)` call fails with a
thrown error — before processing any invoice — whenever the provider has
no customer for the user's email, or the provider customer lacks billing
data or a customer identifier, or the local user lacks billing data or a
customer identifier, or the two customer identifiers differ. -/
theorem synchronizeInvoices_scoped_precondition_fatal (env : InvEnv)
    (now : Nat) (settings : BillingSettings) (u : User)
    (hcond : env.getUserByEmail u.email = none
      ∨ (∃ bu, env.getUserByEmail u.email = some bu ∧
          (bu.billingData = none ∨
           ∃ bd, bu.billingData = some bd ∧ bd.customerID = none))
      ∨ u.billingData = none
      ∨ (∃ ubd, u.billingData = some ubd ∧ ubd.customerID = none)
      ∨ (∃ bu bbd ubd, env.getUserByEmail u.email = some bu ∧
          bu.billingData = some bbd ∧ u.billingData = some ubd ∧
          ubd.customerID ≠ bbd.customerID)) :
    ∃ e, synchronizeInvoices env now settings (some u) = .error e := by
  unfold synchronizeInvoices
  cases hc : env.connectionOK with
  | false => exact ⟨.connectionFailed, by simp [hc]⟩
  | true =>
    obtain ⟨e, he⟩ := checkAndGetBillingUser_isError env u hcond
    exact ⟨e, by simp [hc, he]⟩

/-- C6 witness: on `invEnvC6` the provider has no customer for the
user's email, so the scoped call fails with a thrown error. -/
theorem synchronizeInvoices_scoped_precondition_fatal_witness :
    ∃ e, synchronizeInvoices invEnvC6 0 settings0 (some userC7) = .error e :=
  synchronizeInvoices_scoped_precondition_fatal invEnvC6 0 settings0 userC7
    (Or.inl rfl)

/-- C7: `synchronizeInvoices` advances the tenant-wide
`invoicesLastSynchronizedOn` watermark when called without a user, and a
user-scoped call leaves the stored billing settings (both watermarks)
unchanged, regardless of the resulting tally. -/
theorem synchronizeInvoices_watermark_frame (env : InvEnv) (now : Nat)
    (settings : BillingSettings) :
    (∀ r, synchronizeInvoices env now settings none = .ok r →
       r.settings = { stripe := { settings.stripe with
                        invoicesLastSynchronizedOn := some now } }) ∧
    (∀ u r, synchronizeInvoices env now settings (some u) = .ok r →
       r.settings = settings) := by
  constructor
  · intro r hr
    cases hc : env.connectionOK with
    | false => simp [synchronizeInvoices, hc] at hr
    | true =>
      simp [synchronizeInvoices, hc] at hr
      rw [← hr]
  · intro u r hr
    cases hc : env.connectionOK with
    | false => simp [synchronizeInvoices, hc] at hr
    | true =>
      cases hcg : checkAndGetBillingUser env u with
      | error e => simp [synchronizeInvoices, hc, hcg] at hr
      | ok bu =>
        simp [synchronizeInvoices, hc, hcg] at hr
        rw [← hr]

/-- C7 witness: on `invEnvC7` at time 9, the unscoped sweep stores the
watermark 9 and the sweep scoped to `userC7` leaves `settings0`
unchanged. -/
theorem synchronizeInvoices_watermark_frame_witness :
    resC7none.settings = { stripe := { settings0.stripe with
        invoicesLastSynchronizedOn := some 9 } } ∧
    resC7some.settings = settings0 :=
  ⟨(synchronizeInvoices_watermark_frame invEnvC7 9 settings0).1 resC7none rfl,
   (synchronizeInvoices_watermark_frame invEnvC7 9 settings0).2 userC7 resC7some rfl⟩

/-- C2: with 3 users flagged in billing-sync error, 2 active
not-yet-synchronized users of which the provider round-trip succeeds for
exactly one, and no provider-side changed customers, `synchronizeUsers`
returns the tally inSuccess 1 / inError 4 (the pre-existing error users
are counted into inError up front) and still advances the
`usersLastSynchronizedOn` watermark despite the partial failure. -/
theorem synchronizeUsers_scenario_tally (env : UsersEnv) (now : Nat)
    (settings : BillingSettings) (u1 u2 : User)
    (hconn : env.connectionOK = true)
    (herr : env.usersInError.length = 3)
    (hnew : env.newUsersToSync = [u1, u2])
    (hone : (∃ bd, env.syncUser u1 = .ok bd) ∧ env.syncUser u2 = .error () ∨
            env.syncUser u1 = .error () ∧ ∃ bd, env.syncUser u2 = .ok bd)
    (hchanged : env.updatedUserIDsInBilling = []) :
    synchronizeUsers env now settings =
      .ok ({ inSuccess := 1, inError := 4 },
           { stripe := { settings.stripe with
               usersLastSynchronizedOn := some now } }) := by
  rcases hone with ⟨⟨bd, h1⟩, h2⟩ | ⟨h1, bd, h2⟩ <;>
    simp [synchronizeUsers, hconn, herr, hnew, hchanged,
      syncNewUsersLoop, syncChangedUsersLoop, h1, h2]

/-- C2 witness: the scenario theorem evaluated on `usersEnvC2` (three
error-flagged users, new users `n1` and `n2`, `n1` succeeds). -/
theorem synchronizeUsers_scenario_tally_witness :
    synchronizeUsers usersEnvC2 42 settings0 =
      .ok ({ inSuccess := 1, inError := 4 },
           { stripe := { usersLastSynchronizedOn := some 42
                         invoicesLastSynchronizedOn := none } }) :=
  synchronizeUsers_scenario_tally usersEnvC2 42 settings0
    (mkBareUser "n1" "n1@x.org") (mkBareUser "n2" "n2@x.org")
    rfl rfl rfl (Or.inl ⟨⟨bdCus "cus_n1", rfl⟩, rfl⟩) rfl

/-- Helper: whether one provider settlement call succeeds. -/
def chargeSucceeds (charge : LocalInvoice → Except Unit Unit)
    (inv : LocalInvoice) : Bool :=
  match charge inv with
  | .ok _ => true
  | .error _ => false

/-- Helper: the `chargeInvoices` loop attempts exactly the given
invoices in order and adds one success per succeeding settlement and one
error per failing settlement to the accumulator. -/
theorem chargeInvoicesLoop_spec (charge : LocalInvoice → Except Unit Unit)
    (invs : List LocalInvoice) (t : BillingUserSynchronizeAction) :
    (chargeInvoicesLoop charge invs t).2 = invs ∧
    (chargeInvoicesLoop charge invs t).1.inSuccess =
      t.inSuccess + (invs.filter (chargeSucceeds charge)).length ∧
    (chargeInvoicesLoop charge invs t).1.inError =
      t.inError + (invs.filter (fun i => !chargeSucceeds charge i)).length := by
  induction invs generalizing t with
  | nil => simp [chargeInvoicesLoop]
  | cons inv rest ih =>
    cases hc : charge inv with
    | ok v =>
      have hs : chargeSucceeds charge inv = true := by simp [chargeSucceeds, hc]
      simp [chargeInvoicesLoop, hc, hs, (ih _).1, (ih _).2.1, (ih _).2.2]
      omega
    | error e =>
      have hs : chargeSucceeds charge inv = false := by simp [chargeSucceeds, hc]
      simp [chargeInvoicesLoop, hc, hs, (ih _).1, (ih _).2.1, (ih _).2.2]
      omega

/-- C8: `chargeInvoices` attempts settlement of every payable invoice
exactly once, in the storage layer's return order; each failure is
tallied into `inError` without stopping the remaining attempts, each
success into `inSuccess`, the two counters sum to the number of payable
invoices, and the stored invoices are not modified. -/
theorem chargeInvoices_tally_and_frame (env : ChargeEnv)
    (store : List SavedInvoice) (hconn : env.connectionOK = true) :
    chargeInvoices env store =
      .ok ({ inSuccess :=
               (env.invoicesToPay.filter (chargeSucceeds env.chargeInvoice)).length
             inError :=
               (env.invoicesToPay.filter
                 (fun i => !chargeSucceeds env.chargeInvoice i)).length },
           env.invoicesToPay, store) ∧
    (env.invoicesToPay.filter (chargeSucceeds env.chargeInvoice)).length +
      (env.invoicesToPay.filter
        (fun i => !chargeSucceeds env.chargeInvoice i)).length =
      env.invoicesToPay.length := by
  obtain ⟨hatt, hsucc, herr⟩ := chargeInvoicesLoop_spec env.chargeInvoice
    env.invoicesToPay { inSuccess := 0, inError := 0 }
  constructor
  · simp only [chargeInvoices, hconn, Bool.not_true, Bool.false_eq_true,
      if_false, ite_false]
    rw [show (chargeInvoicesLoop env.chargeInvoice env.invoicesToPay
          { inSuccess := 0, inError := 0 }) =
        ((chargeInvoicesLoop env.chargeInvoice env.invoicesToPay
          { inSuccess := 0, inError := 0 }).1,
         (chargeInvoicesLoop env.chargeInvoice env.invoicesToPay
          { inSuccess := 0, inError := 0 }).2) from rfl]
    rw [hatt]
    congr 1
    cases hres : (chargeInvoicesLoop env.chargeInvoice env.invoicesToPay
      { inSuccess := 0, inError := 0 }).1 with
    | mk s e =>
      rw [hres] at hsucc herr
      simp at hsucc herr
      simp [hsucc, herr]
  · induction env.invoicesToPay with
    | nil => simp
    | cons inv rest ih =>
      cases hs : chargeSucceeds env.chargeInvoice inv <;>
        simp [List.filter, hs, ih] <;> omega

/-- C8 witness: five payable invoices of which `i2` and `i4` fail —
tally inSuccess 3 / inError 2, all five attempted in order, storage
unchanged. -/
theorem chargeInvoices_tally_and_frame_witness :
    chargeInvoices chargeEnvC8 [] =
      .ok ({ inSuccess := 3, inError := 2 }, chargeEnvC8.invoicesToPay, []) := by
  have h := (chargeInvoices_tally_and_frame chargeEnvC8 [] rfl).1
  simpa using h

/-- C9: `synchronizeUser` calls `createUser` exactly when `userExists`
is false and otherwise updates the existing provider identity; after one
run the provider customer exists, so an immediately repeated run takes
the update branch, leaves the provider unchanged, and — starting from a
provider without duplicates — the local user still has at most one
provider customer. -/
theorem synchronizeUser_no_duplicate_customer (p : Provider) (u : User)
    (h : p.customers.count u.id ≤ 1) :
    (synchronizeUser p u).2.2 = !userExists p u ∧
    userExists (synchronizeUser p u).2.1 u = true ∧
    (synchronizeUser (synchronizeUser p u).2.1 u).2.2 = false ∧
    (synchronizeUser (synchronizeUser p u).2.1 u).2.1 =
      (synchronizeUser p u).2.1 ∧
    ((synchronizeUser (synchronizeUser p u).2.1 u).2.1).customers.count u.id ≤ 1 := by
  by_cases hmem : u.id ∈ p.customers
  · have he : userExists p u = true := by
      simp [userExists, List.elem_iff, hmem]
    refine ⟨?_, ?_, ?_, ?_, ?_⟩ <;>
      simp [synchronizeUser, updateUser, he, h]
  · have he : userExists p u = false := by
      simp [userExists, List.elem_iff, hmem]
    have hex1 : userExists { customers := p.customers ++ [u.id] } u = true := by
      simp [userExists, List.elem_iff]
    have hcount : p.customers.count u.id = 0 := List.count_eq_zero.mpr hmem
    refine ⟨?_, ?_, ?_, ?_, ?_⟩ <;>
      simp [synchronizeUser, createUser, updateUser, he, hex1,
        List.count_append, hcount]

/-- C9 witness: starting from a provider with no customers, two
successive runs of `synchronizeUser` create the customer once and only
once. -/
theorem synchronizeUser_no_duplicate_customer_witness :
    (synchronizeUser providerEmpty (mkBareUser "u9" "u9@x.org")).2.2 =
      !userExists providerEmpty (mkBareUser "u9" "u9@x.org") ∧
    userExists (synchronizeUser providerEmpty (mkBareUser "u9" "u9@x.org")).2.1
      (mkBareUser "u9" "u9@x.org") = true ∧
    (synchronizeUser (synchronizeUser providerEmpty
        (mkBareUser "u9" "u9@x.org")).2.1 (mkBareUser "u9" "u9@x.org")).2.2 = false ∧
    (synchronizeUser (synchronizeUser providerEmpty
        (mkBareUser "u9" "u9@x.org")).2.1 (mkBareUser "u9" "u9@x.org")).2.1 =
      (synchronizeUser providerEmpty (mkBareUser "u9" "u9@x.org")).2.1 ∧
    ((synchronizeUser (synchronizeUser providerEmpty
        (mkBareUser "u9" "u9@x.org")).2.1
        (mkBareUser "u9" "u9@x.org")).2.1).customers.count
      (mkBareUser "u9" "u9@x.org").id ≤ 1 :=
  synchronizeUser_no_duplicate_customer providerEmpty
    (mkBareUser "u9" "u9@x.org") (by simp [providerEmpty])

end Billing
